import Mathlib

/-!
Verification of the `simple_chatbot` backend gateway
(`backend/app/api/endpoints.py`, a python-socketio event module) and of the
frontend `MessageInput` component, against the repository's design
specification.

The gateway handlers (`connect`, `disconnect`, `chat_message`, the `'*'`
catch-all `any_event` and the `error` logger) are embedded as pure Lean
functions from their inputs to the list of socket emits they perform.
Structured event payloads are embedded as a small JSON-like value type.
Exceptions raised by the transport or the response generator are made
explicit as parameters describing which step of the `try` body fails and
with which exception class; the handler functions are total, mirroring the
fact that every handler catches at its own boundary and never propagates.
-/

/-- JSON-like payload values exchanged over the socket, as constructed by the
Python handlers (dicts, strings, booleans, lists, numbers, None). -/
inductive JValue where
  | null
  | bool (b : Bool)
  | str (s : String)
  | num (n : Int)
  | obj (fields : List (String × JValue))
  | arr (elems : List JValue)

/-- `isinstance(data, dict)` on a payload value. -/
def JValue.isObj : JValue → Bool
  | .obj _ => true
  | _ => false

/-- Key lookup in an object payload: `data[k]` / `data.get(k)` for a present
key; `none` when the key is absent or the value is not a dict. -/
def JValue.lookup : JValue → String → Option JValue
  | .obj fields, k => List.lookup k fields
  | _, _ => none

/-- `k in data`: the payload is a dict containing key `k`. -/
def JValue.hasKey (v : JValue) (k : String) : Bool :=
  (v.lookup k).isSome

/-- One `sio.emit(event, payload, room=…, skip_sid=…)` call performed by a
handler.  `room = some r` targets only connection `r`; `room = none` is a
broadcast.  `skip = some s` excludes connection `s` from a broadcast. -/
structure Emit where
  event : String
  payload : JValue
  room : Option String
  skip : Option String

/-- `sio.emit(event, payload)`: broadcast to every open connection. -/
def emitAll (event : String) (payload : JValue) : Emit :=
  ⟨event, payload, none, none⟩

/-- `sio.emit(event, payload, room=sid)`: private emit to one connection. -/
def emitTo (event : String) (payload : JValue) (sid : String) : Emit :=
  ⟨event, payload, some sid, none⟩

/-- `sio.emit(event, payload, skip_sid=sid)`: broadcast excluding `sid`. -/
def emitSkip (event : String) (payload : JValue) (sid : String) : Emit :=
  ⟨event, payload, none, some sid⟩

/-- Whether connection `c` is a recipient of emit `e`, given the room and
skip_sid targeting of python-socketio. -/
def Emit.receivedBy (e : Emit) (c : String) : Bool :=
  (match e.room with
    | some r => c == r
    | none => true) &&
  (match e.skip with
    | some s => c != s
    | none => true)

/-- Modelled from the spec: the Connection Registry
(`app.services.connection_manager`, not present in the sources) maps
connection identifiers to their connect time; pure in-memory state. -/
abbrev Registry := List (String × Nat)

/-- Modelled from the spec: `register(connectionId)` inserts a new entry with
the current time; idempotent if called twice for the same id (overwrites the
timestamp), no error. -/
def register (r : Registry) (id : String) (t : Nat) : Registry :=
  (id, t) :: r.filter (fun p => p.1 != id)

/-- Modelled from the spec: `deregister(connectionId)` removes the entry;
no-op (not an error) if the id is absent. -/
def deregister (r : Registry) (id : String) : Registry :=
  r.filter (fun p => p.1 != id)

/-- Modelled from the spec: the Response Generator
(`app.services.ai_assistant.generate_dummy_response`, not present in the
sources) returns an AI-origin ChatMessage payload: the synthetic AI marker
`aiSid` as sender, a reply text chosen from a fixed pool (never failing, with
a fixed default fallback), the current timestamp, and `is_ai = True`. -/
def generate_dummy_response (aiSid reply now : String) : JValue :=
  .obj [("sender_sid", .str aiSid), ("text", .str reply),
        ("timestamp", .str now), ("is_ai", .bool true)]

/-- The welcome text of the AI-origin greeting emitted on connect. -/
def aiWelcomeText : String :=
  "Hello! I am your friendly AI assistant. Ask me anything!"

/-- The three emits of the `connect` handler's success path, in program
order: the private `server_registered_sid` ack, the private
`message`/status greeting, and the private AI-origin welcome ChatMessage. -/
def connectEmits (sid now aiSid : String) : List Emit :=
  [ emitTo "server_registered_sid" (.obj [("sid", .str sid)]) sid,
    emitTo "message"
      (.obj [("type", .str "status"), ("data", .str ("Welcome " ++ sid ++ "!"))]) sid,
    emitTo "new_message" (generate_dummy_response aiSid aiWelcomeText now) sid ]

/-- The `connect` handler: registers the connection (Registry modelled from
the spec) and performs the three private emits of `connectEmits`.  `t` is the
registration time, `now` the ISO timestamp string, `aiSid` the synthetic AI
sender marker. -/
def connectHandler (reg : Registry) (sid : String) (t : Nat) (now aiSid : String) :
    Registry × List Emit :=
  (register reg sid t, connectEmits sid now aiSid)

/-- The departure notice emitted by `disconnect`: an event named `message`
with a plain status payload, broadcast to every connection except the
departing one (`skip_sid=sid`). -/
def departureNotice (sid : String) : Emit :=
  emitSkip "message"
    (.obj [("type", .str "status"), ("data", .str ("User " ++ sid ++ " has left."))]) sid

/-- The `disconnect` handler: deregisters the connection (Registry modelled
from the spec) and broadcasts the departure notice.  `notifyOk = false`
models the notice emit raising: the handler's `except` logs and swallows it,
so the handler still completes and the deregistration stands. -/
def disconnectHandler (reg : Registry) (sid : String) (notifyOk : Bool) :
    Registry × List Emit :=
  (deregister reg sid, if notifyOk then [departureNotice sid] else [])

/-- The validation performed by `chat_message`:
`isinstance(data, dict) and "text" in data`.  Note that the handler does not
test the text value itself, so an empty string passes. -/
def validPayload (data : JValue) : Bool :=
  data.isObj && data.hasKey "text"

/-- The private `validation_error` emit of `chat_message`. -/
def validationErrorEmit (sid : String) : Emit :=
  emitTo "error"
    (.obj [("type", .str "validation_error"),
           ("message", .str "Invalid message format. Expected \x7b\x27text\x27: \x27your message\x27\x7d")]) sid

/-- The private `server_error` emit of `chat_message`'s
`socketio.exceptions.SocketIOError` handler. -/
def serverErrorEmit (sid : String) : Emit :=
  emitTo "error"
    (.obj [("type", .str "server_error"),
           ("message", .str "A server error occurred while processing your message.")]) sid

/-- The private `unexpected_error` emit of `chat_message`'s generic
`Exception` handler. -/
def unexpectedErrorEmit (sid : String) : Emit :=
  emitTo "error"
    (.obj [("type", .str "unexpected_error"),
           ("message", .str "An unexpected server error occurred.")]) sid

/-- The broadcast user ChatMessage payload built by `chat_message`:
`{"sender_sid": sid, "text": data.get("text"), "timestamp": now+"Z",
"is_ai": False}`. -/
def userMessagePayload (sid : String) (text : JValue) (now : String) : JValue :=
  .obj [("sender_sid", .str sid), ("text", text),
        ("timestamp", .str now), ("is_ai", .bool false)]

/-- Exception classes distinguished by `chat_message`'s two `except` arms. -/
inductive Exc where
  | sioErr
  | other
deriving DecidableEq

/-- The fallible steps of `chat_message`'s `try` body, in program order. -/
inductive ChatStep where
  | userBroadcast
  | generator
  | aiBroadcast
deriving DecidableEq

/-- The emit performed by the matching `except` arm: `server_error` for a
`SocketIOError`, `unexpected_error` for any other exception; `catchOk =
false` models the error emit itself raising, which the nested `except` logs
and swallows. -/
def chatCatchEmits (sid : String) (e : Exc) (catchOk : Bool) : List Emit :=
  if catchOk then
    [match e with
      | .sioErr => serverErrorEmit sid
      | .other => unexpectedErrorEmit sid]
  else []

/-- The `chat_message` handler.  `fail = none` is the non-raising run;
`fail = some (st, e)` makes step `st` raise an exception of class `e`, after
which the matching `except` arm emits the private error event.  The function
is total: no exception escapes the handler. -/
def chat_message (sid : String) (data : JValue) (now : String) (aiResp : JValue)
    (fail : Option (ChatStep × Exc)) (catchOk : Bool) : List Emit :=
  if validPayload data then
    let userMsg := emitAll "new_message"
      (userMessagePayload sid ((data.lookup "text").getD .null) now)
    match fail with
    | none => [userMsg, emitAll "new_message" aiResp]
    | some (.userBroadcast, e) => chatCatchEmits sid e catchOk
    | some (.generator, e) => userMsg :: chatCatchEmits sid e catchOk
    | some (.aiBroadcast, e) => userMsg :: chatCatchEmits sid e catchOk
  else
    [validationErrorEmit sid]

/-- The event names with a registered handler in the endpoints module. -/
def recognizedEvents : List String :=
  ["connect", "disconnect", "chat_message", "error"]

/-- The `'*'` catch-all handler `any_event`: logs at debug level only; no
emit, no state change. -/
def any_event (reg : Registry) (event : String) (sid : String) (data : JValue) :
    Registry × List Emit :=
  (reg, [])

/-- Ambient inputs of a dispatched event: the registry, the registration
time, the timestamp string, the AI marker and reply, and the exception
scenario for `chat_message`. -/
structure GatewayCtx where
  reg : Registry
  t : Nat
  now : String
  aiSid : String
  aiResp : JValue
  fail : Option (ChatStep × Exc)
  catchOk : Bool

/-- Event dispatch as wired by the module's decorators: `connect`,
`disconnect` and `chat_message` have dedicated handlers, `error` has a
logging-only handler, and every other event name falls through to
`any_event`. -/
def dispatch (ctx : GatewayCtx) (event : String) (sid : String) (data : JValue) :
    Registry × List Emit :=
  if event = "connect" then connectHandler ctx.reg sid ctx.t ctx.now ctx.aiSid
  else if event = "disconnect" then disconnectHandler ctx.reg sid true
  else if event = "chat_message" then
    (ctx.reg, chat_message sid data ctx.now ctx.aiResp ctx.fail ctx.catchOk)
  else if event = "error" then (ctx.reg, [])
  else any_event ctx.reg event sid data

/-- ECMAScript WhiteSpace and LineTerminator code points, the character class
removed by `String.prototype.trim`. -/
def jsWhitespace (c : Char) : Bool :=
  let n := c.toNat
  (n == 0x9) || (n == 0xA) || (n == 0xB) || (n == 0xC) || (n == 0xD) ||
  (n == 0x20) || (n == 0xA0) || (n == 0x1680) ||
  (Nat.ble 0x2000 n && Nat.ble n 0x200A) ||
  (n == 0x2028) || (n == 0x2029) || (n == 0x202F) || (n == 0x205F) ||
  (n == 0x3000) || (n == 0xFEFF)

/-- `text.trim()`: remove leading and trailing ECMAScript whitespace. -/
def jsTrim (s : String) : String :=
  String.mk (((s.data.dropWhile jsWhitespace).reverse.dropWhile jsWhitespace).reverse)

/-- Outcome of one `MessageInput.handleSubmit` run: the argument passed to
`onSendMessage` when it is invoked, and the input field contents after the
run. -/
structure SubmitResult where
  sent : Option String
  field : String

/-- `handleSubmit` of `MessageInput.tsx`: if `text.trim()` is truthy
(non-empty), call `onSendMessage(text.trim())` and reset the field;
otherwise do nothing. -/
def handleSubmit (text : String) : SubmitResult :=
  if jsTrim text ≠ "" then ⟨some (jsTrim text), ""⟩ else ⟨none, text⟩

/-! ## Helper lemmas -/

theorem lookup_filter_ne_self (l : List (String × Nat)) (id : String) :
    List.lookup id (l.filter (fun p => p.1 != id)) = none := by
  induction l with
  | nil => rfl
  | cons a tl ih =>
      by_cases h : a.1 = id
      · simp [List.filter_cons, h, ih]
      · have hb : (a.1 != id) = true := by simp [bne, h]
        have hb2 : (id == a.1) = false := by
          simp [Ne.symm h]
        simp [List.filter_cons, hb, List.lookup, hb2, ih]

/-! ## Claims -/

/-- C8: calling `register` twice with the same id leaves exactly one entry
for that id (the second call overwrites the timestamp) and raises no error
(the function is total); register is idempotent with respect to the set of
registered ids, since the double call equals the single second call. -/
theorem C8_register_idempotent (r : Registry) (id : String) (t₁ t₂ : Nat) :
    register (register r id t₁) id t₂ = register r id t₂ ∧
    ((register (register r id t₁) id t₂).filter (fun p => p.1 == id)).length = 1 := by
  have hstep : register (register r id t₁) id t₂ = register r id t₂ := by
    simp [register, List.filter_cons, List.filter_filter]
  refine ⟨hstep, ?_⟩
  rw [hstep]
  simp [register, List.filter_cons, List.filter_filter]

/-- C9: on every successful connect the server emits, besides the ack and
the AI welcome, exactly one event named `message` with payload
`{type: "status", data: "Welcome <sid>!"}`, targeted at the new connection
only (`room = sid`). -/
theorem C9_connect_status_message (sid now aiSid : String) :
    (connectEmits sid now aiSid).filter (fun e => e.event == "message") =
      [emitTo "message"
        (JValue.obj [("type", JValue.str "status"),
                     ("data", JValue.str ("Welcome " ++ sid ++ "!"))]) sid] ∧
    (emitTo "message"
        (JValue.obj [("type", JValue.str "status"),
                     ("data", JValue.str ("Welcome " ++ sid ++ "!"))]) sid).room = some sid :=
  ⟨rfl, rfl⟩

/-- C10: in `MessageInput.handleSubmit`, `onSendMessage` is invoked iff the
entered text is non-empty after trimming, it is invoked with the trimmed
text, and the input field is then reset to the empty string; hence the
client never sends an empty or whitespace-only text. -/
theorem C10_trimmed_send (text : String) :
    ((handleSubmit text).sent ≠ none ↔ jsTrim text ≠ "") ∧
    ∀ s, (handleSubmit text).sent = some s →
      s = jsTrim text ∧ s ≠ "" ∧ (handleSubmit text).field = "" := by
  by_cases h : jsTrim text = ""
  · refine ⟨by simp [handleSubmit, h], ?_⟩
    intro s hs
    simp [handleSubmit, h] at hs
  · refine ⟨by simp [handleSubmit, h], ?_⟩
    intro s hs
    simp [handleSubmit, h] at hs
    refine ⟨hs.symm, ?_, by simp [handleSubmit, h]⟩
    rw [hs] at h
    exact h

theorem C10_trimmed_send_witness :
    (("hi" : String) = jsTrim "  hi  " ∧ ("hi" : String) ≠ "" ∧
      (handleSubmit "  hi  ").field = "") ∧ jsTrim "  hi  " ≠ "" :=
  ⟨(C10_trimmed_send "  hi  ").2 "hi" (by decide),
   (C10_trimmed_send "  hi  ").1.mp (by decide)⟩

/-- C1 counterexample: the payload `{"text": ""}` — a structured value whose
text field is the empty string — passes the handler's validation (which only
tests `isinstance(data, dict) and "text" in data`), so the user message IS
broadcast with an empty text and no `validation_error` is emitted,
contradicting the claim and the non-empty-text broadcast invariant. -/
theorem C1_counterexample :
    chat_message "A" (JValue.obj [("text", JValue.str "")]) "t"
        (generate_dummy_response "AI_Assistant" "ok" "t") none true =
      [ emitAll "new_message" (userMessagePayload "A" (JValue.str "") "t"),
        emitAll "new_message" (generate_dummy_response "AI_Assistant" "ok" "t") ] ∧
    (userMessagePayload "A" (JValue.str "") "t").lookup "text" = some (JValue.str "") ∧
    (chat_message "A" (JValue.obj [("text", JValue.str "")]) "t"
        (generate_dummy_response "AI_Assistant" "ok" "t") none true).filter
      (fun em => em.event == "error") = [] :=
  ⟨rfl, rfl, rfl⟩

/-- C1 amended: for every inbound chat_message event whose payload is not a
structured value or has no `text` key at all, no broadcast occurs and the
sender — and only the sender — receives exactly one error event of kind
`validation_error`; a present-but-empty `text` field, however, passes
validation, so broadcast ChatMessages may carry an empty text. -/
theorem C1_invalid_payload_rejected (sid : String) (data : JValue) (now : String)
    (aiResp : JValue) (fail : Option (ChatStep × Exc)) (catchOk : Bool)
    (h : validPayload data = false) :
    chat_message sid data now aiResp fail catchOk = [validationErrorEmit sid] ∧
    (validationErrorEmit sid).room = some sid ∧
    (validationErrorEmit sid).payload.lookup "type" = some (JValue.str "validation_error") ∧
    (chat_message sid data now aiResp fail catchOk).filter
      (fun em => em.event == "new_message") = [] := by
  have e1 : chat_message sid data now aiResp fail catchOk = [validationErrorEmit sid] := by
    simp [chat_message, h]
  refine ⟨e1, rfl, rfl, ?_⟩
  rw [e1]
  rfl

theorem C1_invalid_payload_rejected_witness :
    validPayload (JValue.str "x") = false ∧
    chat_message "A" (JValue.str "x") "t" JValue.null none true = [validationErrorEmit "A"] :=
  ⟨rfl, (C1_invalid_payload_rejected "A" (JValue.str "x") "t" JValue.null none true rfl).1⟩

/-- C2: for every chat_message event with a valid payload whose text is
non-empty, the handler performs exactly two broadcasts in order: first the
user ChatMessage (sender_sid = the sending connection, is_ai = false,
timestamp set, room = none so all open connections including the sender
receive it), then the AI ChatMessage obtained from the Response Generator on
the message text (synthetic AI sender, is_ai = true). -/
theorem C2_valid_message_broadcast (sid : String) (data : JValue)
    (text now aiSid reply : String) (catchOk : Bool)
    (hobj : data.isObj = true) (htext : data.lookup "text" = some (JValue.str text))
    (hne : text ≠ "") :
    chat_message sid data now (generate_dummy_response aiSid reply now) none catchOk =
      [ emitAll "new_message" (userMessagePayload sid (JValue.str text) now),
        emitAll "new_message" (generate_dummy_response aiSid reply now) ] ∧
    (userMessagePayload sid (JValue.str text) now).lookup "sender_sid"
      = some (JValue.str sid) ∧
    (userMessagePayload sid (JValue.str text) now).lookup "is_ai"
      = some (JValue.bool false) ∧
    (userMessagePayload sid (JValue.str text) now).lookup "timestamp"
      = some (JValue.str now) ∧
    (generate_dummy_response aiSid reply now).lookup "is_ai" = some (JValue.bool true) ∧
    (generate_dummy_response aiSid reply now).lookup "sender_sid"
      = some (JValue.str aiSid) ∧
    (emitAll "new_message" (userMessagePayload sid (JValue.str text) now)).room = none := by
  refine ⟨?_, rfl, rfl, rfl, rfl, rfl, rfl⟩
  have hv : validPayload data = true := by
    simp [validPayload, JValue.hasKey, htext, hobj]
  simp [chat_message, hv, htext]

theorem C2_valid_message_broadcast_witness :
    chat_message "A" (JValue.obj [("text", JValue.str "hi")]) "t"
        (generate_dummy_response "AI_Assistant" "Hello!" "t") none true =
      [ emitAll "new_message" (userMessagePayload "A" (JValue.str "hi") "t"),
        emitAll "new_message" (generate_dummy_response "AI_Assistant" "Hello!" "t") ] :=
  (C2_valid_message_broadcast "A" (JValue.obj [("text", JValue.str "hi")]) "hi" "t"
    "AI_Assistant" "Hello!" true rfl rfl (by decide)).1

/-- C3: on connect, the new connection — and only it — receives the
`server_registered_sid` ack carrying its identifier and the AI-origin
welcome ChatMessage (is_ai = true, synthetic AI sender), each exactly once;
every connect emit is targeted at the new connection and received by no
other connection, and the connection is registered in the Registry
(modelled from the spec) with its connect time. -/
theorem C3_connect_ack_and_welcome (reg : Registry) (sid : String) (t : Nat)
    (now aiSid c : String) (hc : c ≠ sid) :
    (connectHandler reg sid t now aiSid).2.filter
        (fun e => e.event == "server_registered_sid") =
      [emitTo "server_registered_sid" (JValue.obj [("sid", JValue.str sid)]) sid] ∧
    (connectHandler reg sid t now aiSid).2.filter (fun e => e.event == "new_message") =
      [emitTo "new_message" (generate_dummy_response aiSid aiWelcomeText now) sid] ∧
    (generate_dummy_response aiSid aiWelcomeText now).lookup "is_ai"
      = some (JValue.bool true) ∧
    (∀ e ∈ (connectHandler reg sid t now aiSid).2, e.receivedBy sid = true) ∧
    (∀ e ∈ (connectHandler reg sid t now aiSid).2, e.receivedBy c = false) ∧
    List.lookup sid (connectHandler reg sid t now aiSid).1 = some t := by
  refine ⟨rfl, rfl, rfl, ?_, ?_, ?_⟩
  · intro e he
    simp [connectHandler, connectEmits] at he
    rcases he with h | h | h <;> subst h <;> simp [Emit.receivedBy, emitTo]
  · intro e he
    simp [connectHandler, connectEmits] at he
    rcases he with h | h | h <;> subst h <;>
      simp [Emit.receivedBy, emitTo, beq_eq_false_iff_ne, hc]
  · simp [connectHandler, register, List.lookup]

theorem C3_connect_ack_and_welcome_witness :
    (∀ e ∈ (connectHandler [] "A" 0 "t" "AI_Assistant").2, e.receivedBy "B" = false) ∧
    List.lookup "A" (connectHandler [] "A" 0 "t" "AI_Assistant").1 = some 0 :=
  ⟨(C3_connect_ack_and_welcome [] "A" 0 "t" "AI_Assistant" "B" (by decide)).2.2.2.2.1,
   (C3_connect_ack_and_welcome [] "A" 0 "t" "AI_Assistant" "B" (by decide)).2.2.2.2.2⟩

/-- C4 counterexample: the departure notice that `disconnect` broadcasts is
not a ChatMessage at all — it is an event named `message` with a plain
status payload `{type: "status", data: "User A has left."}` carrying no
`is_ai` flag; no `new_message` (ChatMessage) event is emitted on
disconnect. -/
theorem C4_counterexample :
    (disconnectHandler [("A", 0)] "A" true).2.filter
      (fun e => e.event == "new_message") = [] ∧
    (disconnectHandler [("A", 0)] "A" true).2 = [departureNotice "A"] ∧
    (departureNotice "A").payload.lookup "is_ai" = none ∧
    (departureNotice "A").event = "message" :=
  ⟨rfl, rfl, rfl, rfl⟩

/-- C4 amended: on disconnect the handler deregisters the connection from
the Registry (modelled from the spec) and broadcasts a departure status
notice — an event named `message` with payload
`{type: "status", data: "User <sid> has left."}`, not an is_ai ChatMessage —
to all remaining open connections (`skip_sid` excludes the departing one; a
no-op without error if none remain); an error raised while emitting the
notice is logged and swallowed, so the deregistration always stands. -/
theorem C4_disconnect_notice (reg : Registry) (sid c : String) (notifyOk : Bool)
    (hc : c ≠ sid) :
    List.lookup sid (disconnectHandler reg sid notifyOk).1 = none ∧
    (notifyOk = true → (disconnectHandler reg sid notifyOk).2 = [departureNotice sid] ∧
      (departureNotice sid).receivedBy c = true ∧
      (departureNotice sid).receivedBy sid = false) ∧
    (notifyOk = false → (disconnectHandler reg sid notifyOk).2 = []) := by
  refine ⟨?_, ?_, ?_⟩
  · simpa [disconnectHandler, deregister] using lookup_filter_ne_self reg sid
  · intro h
    refine ⟨by simp [disconnectHandler, h], ?_, ?_⟩
    · simp [departureNotice, Emit.receivedBy, emitSkip, bne, beq_eq_false_iff_ne, hc]
    · simp [departureNotice, Emit.receivedBy, emitSkip, bne]
  · intro h
    simp [disconnectHandler, h]

theorem C4_disconnect_notice_witness :
    List.lookup "A" (disconnectHandler [("A", 0), ("B", 1)] "A" true).1 = none ∧
    (disconnectHandler [("A", 0), ("B", 1)] "A" true).2 = [departureNotice "A"] ∧
    (departureNotice "A").receivedBy "B" = true ∧
    (departureNotice "A").receivedBy "A" = false :=
  ⟨(C4_disconnect_notice [("A", 0), ("B", 1)] "A" "B" true (by decide)).1,
   (C4_disconnect_notice [("A", 0), ("B", 1)] "A" "B" true (by decide)).2.1 rfl⟩

/-- C5 counterexample: when the Response Generator raises an exception that
is not a `socketio.exceptions.SocketIOError`, the generic `except Exception`
arm runs and the private error event has kind `unexpected_error`, not
`server_error` as the claim states. -/
theorem C5_counterexample :
    chat_message "A" (JValue.obj [("text", JValue.str "hi")]) "t" JValue.null
        (some (ChatStep.generator, Exc.other)) true =
      [ emitAll "new_message" (userMessagePayload "A" (JValue.str "hi") "t"),
        unexpectedErrorEmit "A" ] ∧
    (unexpectedErrorEmit "A").payload.lookup "type"
      = some (JValue.str "unexpected_error") ∧
    JValue.str "unexpected_error" ≠ JValue.str "server_error" := by
  refine ⟨rfl, rfl, ?_⟩
  intro h
  injection h with h1
  exact absurd h1 (by decide)

/-- C5 amended: for every chat_message event with a valid payload, if the
Response Generator or any broadcast step raises, the handler emits exactly
one private error event to the sending connection only — of kind
`server_error` when the exception is a Socket.IO transport error and of kind
`unexpected_error` for any other exception — and never lets the exception
propagate (the handler is a total function; `catchOk = true` states that the
error emit itself succeeds, its own failure being likewise swallowed). -/
theorem C5_failure_reported_privately (sid : String) (data : JValue) (now : String)
    (aiResp : JValue) (st : ChatStep) (e : Exc) (hv : validPayload data = true) :
    (chat_message sid data now aiResp (some (st, e)) true).filter
        (fun em => em.event == "error") =
      [if e = Exc.sioErr then serverErrorEmit sid else unexpectedErrorEmit sid] ∧
    (serverErrorEmit sid).room = some sid ∧
    (unexpectedErrorEmit sid).room = some sid ∧
    (serverErrorEmit sid).payload.lookup "type" = some (JValue.str "server_error") ∧
    (unexpectedErrorEmit sid).payload.lookup "type"
      = some (JValue.str "unexpected_error") := by
  refine ⟨?_, rfl, rfl, rfl, rfl⟩
  cases st <;> cases e <;>
    simp [chat_message, hv, chatCatchEmits, serverErrorEmit, unexpectedErrorEmit,
      emitTo, emitAll, userMessagePayload]

theorem C5_failure_reported_privately_witness :
    (chat_message "A" (JValue.obj [("text", JValue.str "hi")]) "t" JValue.null
        (some (ChatStep.aiBroadcast, Exc.sioErr)) true).filter
        (fun em => em.event == "error") =
      [if Exc.sioErr = Exc.sioErr then serverErrorEmit "A" else unexpectedErrorEmit "A"] :=
  (C5_failure_reported_privately "A" (JValue.obj [("text", JValue.str "hi")]) "t"
    JValue.null ChatStep.aiBroadcast Exc.sioErr rfl).1

/-- C6: every inbound event whose name is none of the recognized protocol
events (`connect`, `disconnect`, `chat_message`, `error`) falls through to
the `'*'` catch-all `any_event`, which logs at debug level and does nothing
else: the registry is unchanged and no event is emitted to any connection. -/
theorem C6_unrecognized_event_ignored (ctx : GatewayCtx) (event sid : String)
    (data : JValue) (h : event ∉ recognizedEvents) :
    dispatch ctx event sid data = (ctx.reg, []) := by
  simp [recognizedEvents, List.mem_cons] at h
  obtain ⟨h1, h2, h3, h4⟩ := h
  simp [dispatch, h1, h2, h3, h4, any_event]

theorem C6_unrecognized_event_ignored_witness :
    dispatch ⟨[], 0, "t", "AI_Assistant", JValue.null, none, true⟩ "ping" "A" JValue.null
      = (([] : Registry), ([] : List Emit)) :=
  C6_unrecognized_event_ignored ⟨[], 0, "t", "AI_Assistant", JValue.null, none, true⟩
    "ping" "A" JValue.null (by decide)

/-- C7: every `new_message` (ChatMessage) emit produced by the connect
handler or by the chat_message handler (under any payload and any exception
scenario, with the Response Generator's reply modelled from the spec) has
its `is_ai` flag mutually exclusive with a genuine sender identifier:
`is_ai = true` messages carry the synthetic AI marker as `sender_sid` (never
the sending connection's id), and `is_ai = false` messages carry the
originating connection's id. -/
theorem C7_is_ai_sender_exclusive (reg : Registry) (sid : String) (t : Nat)
    (now aiSid reply : String) (data : JValue) (fail : Option (ChatStep × Exc))
    (catchOk : Bool) (hne : sid ≠ aiSid) :
    ∀ e ∈ (connectHandler reg sid t now aiSid).2 ++
        chat_message sid data now (generate_dummy_response aiSid reply now) fail catchOk,
      e.event = "new_message" →
        (e.payload.lookup "is_ai" = some (JValue.bool true) ∧
         e.payload.lookup "sender_sid" = some (JValue.str aiSid) ∧
         e.payload.lookup "sender_sid" ≠ some (JValue.str sid)) ∨
        (e.payload.lookup "is_ai" = some (JValue.bool false) ∧
         e.payload.lookup "sender_sid" = some (JValue.str sid)) := by
  have hai : ∀ m : String,
      (generate_dummy_response aiSid m now).lookup "is_ai" = some (JValue.bool true) ∧
      (generate_dummy_response aiSid m now).lookup "sender_sid"
        = some (JValue.str aiSid) ∧
      (generate_dummy_response aiSid m now).lookup "sender_sid"
        ≠ some (JValue.str sid) := by
    intro m
    refine ⟨rfl, rfl, ?_⟩
    intro hcontra
    have h1 : JValue.str aiSid = JValue.str sid := by
      simpa [generate_dummy_response, JValue.lookup, List.lookup] using hcontra
    injection h1 with h2
    exact hne h2.symm
  have huser : ∀ v : JValue,
      (userMessagePayload sid v now).lookup "is_ai" = some (JValue.bool false) ∧
      (userMessagePayload sid v now).lookup "sender_sid" = some (JValue.str sid) :=
    fun v => ⟨rfl, rfl⟩
  have hcatch : ∀ (exc : Exc) (cOk : Bool) (em : Emit),
      em ∈ chatCatchEmits sid exc cOk → em.event = "error" := by
    intro exc cOk em hm
    cases cOk <;> cases exc <;>
      simp [chatCatchEmits, serverErrorEmit, unexpectedErrorEmit, emitTo] at hm <;>
      subst hm <;> rfl
  intro e he hev
  rw [List.mem_append] at he
  rcases he with he | he
  · simp [connectHandler, connectEmits] at he
    rcases he with h | h | h <;> subst h
    · simp [emitTo] at hev
    · simp [emitTo] at hev
    · exact Or.inl (hai aiWelcomeText)
  · by_cases hv : validPayload data
    · rw [chat_message, if_pos hv] at he
      rcases fail with _ | ⟨st, exc⟩
      · simp at he
        rcases he with h | h <;> subst h
        · exact Or.inr (huser _)
        · exact Or.inl (hai reply)
      · cases st
        · have hev2 := hcatch exc catchOk e he
          rw [hev] at hev2
          exact absurd hev2 (by decide)
        · rcases List.mem_cons.mp he with h | h
          · subst h
            exact Or.inr (huser _)
          · have hev2 := hcatch exc catchOk e h
            rw [hev] at hev2
            exact absurd hev2 (by decide)
        · rcases List.mem_cons.mp he with h | h
          · subst h
            exact Or.inr (huser _)
          · have hev2 := hcatch exc catchOk e h
            rw [hev] at hev2
            exact absurd hev2 (by decide)
    · rw [chat_message, if_neg hv] at he
      simp at he
      subst he
      simp [validationErrorEmit, emitTo] at hev

theorem C7_is_ai_sender_exclusive_witness :
    ((emitAll "new_message"
        (userMessagePayload "A"
          (((JValue.obj [("text", JValue.str "hi")]).lookup "text").getD JValue.null)
          "t")).payload.lookup "is_ai" = some (JValue.bool true) ∧
     (emitAll "new_message"
        (userMessagePayload "A"
          (((JValue.obj [("text", JValue.str "hi")]).lookup "text").getD JValue.null)
          "t")).payload.lookup "sender_sid" = some (JValue.str "AI_Assistant") ∧
     (emitAll "new_message"
        (userMessagePayload "A"
          (((JValue.obj [("text", JValue.str "hi")]).lookup "text").getD JValue.null)
          "t")).payload.lookup "sender_sid" ≠ some (JValue.str "A")) ∨
    ((emitAll "new_message"
        (userMessagePayload "A"
          (((JValue.obj [("text", JValue.str "hi")]).lookup "text").getD JValue.null)
          "t")).payload.lookup "is_ai" = some (JValue.bool false) ∧
     (emitAll "new_message"
        (userMessagePayload "A"
          (((JValue.obj [("text", JValue.str "hi")]).lookup "text").getD JValue.null)
          "t")).payload.lookup "sender_sid" = some (JValue.str "A")) :=
  C7_is_ai_sender_exclusive [] "A" 0 "t" "AI_Assistant" "ok"
    (JValue.obj [("text", JValue.str "hi")]) none true (by decide)
    (emitAll "new_message"
      (userMessagePayload "A"
        (((JValue.obj [("text", JValue.str "hi")]).lookup "text").getD JValue.null) "t"))
    (List.Mem.tail _ (List.Mem.tail _ (List.Mem.tail _ (List.Mem.head _)))) rfl
